import Mathlib

/-!
# Shrimp Task Manager — Task Graph & Reconciliation Engine, shallow embedding

Shallow embedding of the task tools of the repository
(`verifyTask`, `executeTask`, `updateTaskContent`, `splitTasksRaw`)
together with the store-level operations they call.

The store-level operations (`getTaskById`, `updateTaskStatus`,
`updateTaskSummary`, `canExecuteTask`, `batchCreateOrUpdateTasks`,
`modelClearAllTasks`, `modelUpdateTaskContent`) live in the taskModel
module of the repository, which is not among the provided sources; they are
modelled from the specification (sections 4.3, 4.4, 4.6, 4.7 and the
lifecycle rules of section 3), as marked in their doc comments.
Timestamps are modelled by a logical clock (`now : Nat`); scores are
rationals (the transport layer passes arbitrary, schema-bounded numbers).
-/

namespace Shrimp

/-! ## Entity model (src/types/index.ts) -/

/-- Task status enum (`TaskStatus`). -/
inductive TaskStatus where
  | pending
  | in_progress
  | completed
  | blocked
deriving DecidableEq, Repr

/-- A dependency reference to a prerequisite task (`TaskDependency`). -/
structure TaskDependency where
  taskId : String
deriving DecidableEq, Repr

/-- Related-file relationship type (`RelatedFileType`). -/
inductive RelatedFileType where
  | TO_MODIFY
  | REFERENCE
  | CREATE
  | DEPENDENCY
  | OTHER
deriving DecidableEq, Repr

/-- A file related to a task (`RelatedFile`); `lineStart`/`lineEnd` optional. -/
structure RelatedFile where
  path : String
  type : RelatedFileType
  description : Option String
  lineStart : Option Nat
  lineEnd : Option Nat
deriving DecidableEq, Repr

/-- The task entity (`Task` in src/types/index.ts). -/
structure Task where
  id : String
  name : String
  description : String
  notes : Option String
  status : TaskStatus
  dependencies : List TaskDependency
  createdAt : Nat
  updatedAt : Nat
  completedAt : Option Nat
  summary : Option String
  relatedFiles : Option (List RelatedFile)
  analysisResult : Option String
  implementationGuide : Option String
  verificationCriteria : Option String
deriving DecidableEq, Repr

/-! ## Store facade (taskModel, modelled from the spec) -/

/-- Modelled from the spec: `getById` of the Store Facade (section 4.7);
the taskModel module is not among the provided sources. Looks a task up
by its id in the durable snapshot. -/
def getTaskById (tasks : List Task) (taskId : String) : Option Task :=
  tasks.find? (fun t => t.id == taskId)

/-- Replace the task with the given id by `g` of itself, leaving every
other task unchanged (helper for the store-level update operations). -/
def updateById (tasks : List Task) (taskId : String) (g : Task → Task) : List Task :=
  tasks.map (fun t => if t.id == taskId then g t else t)

/-- Modelled from the spec: `updateTaskStatus` of the taskModel module
(not among the provided sources). Sets the status of the task with the
given id; `updatedAt` advances on every mutation (section 3) and
`completedAt` is set when the status transitions to `completed`. -/
def updateTaskStatus (tasks : List Task) (taskId : String) (status : TaskStatus)
    (now : Nat) : List Task :=
  updateById tasks taskId (fun t =>
    { t with
      status := status
      updatedAt := now
      completedAt := if status = TaskStatus.completed then some now else t.completedAt })

/-- Modelled from the spec: `updateTaskSummary` of the taskModel module
(not among the provided sources). Attaches the completion summary to the
task with the given id; `updatedAt` advances (section 3). -/
def updateTaskSummary (tasks : List Task) (taskId : String) (summary : String)
    (now : Nat) : List Task :=
  updateById tasks taskId (fun t => { t with summary := some summary, updatedAt := now })

/-- Whether the dependency id resolves to a task whose status is `completed`
(section 8: "`canExecute` is `true` iff every dependency id resolves to a
task with `status == completed`"). -/
def depCompleted (tasks : List Task) (depId : String) : Bool :=
  match getTaskById tasks depId with
  | some t => t.status == TaskStatus.completed
  | none => false

/-- Result of the Execution Gate: `{canExecute, blockedBy}`. -/
structure ExecutionCheck where
  canExecute : Bool
  blockedBy : List String
deriving DecidableEq, Repr

/-- Modelled from the spec: `canExecuteTask` of the taskModel module (not
among the provided sources) — the Execution Gate of section 4.4:
executable iff the status of every dependency is `completed`, otherwise
`blockedBy` lists the non-completed dependency ids in dependency-list
order. -/
def canExecuteTask (tasks : List Task) (taskId : String) : ExecutionCheck :=
  match getTaskById tasks taskId with
  | none => ⟨false, []⟩
  | some task =>
    let blocked :=
      (task.dependencies.filter (fun d => !(depCompleted tasks d.taskId))).map
        (fun d => d.taskId)
    ⟨blocked.isEmpty, blocked⟩

/-! ## verifyTask (src/tools/task/verifyTask.ts) -/

/-- Outcome of the `verifyTask` tool, one constructor per return site. -/
inductive VerifyResult where
  | notFound
  | statusError (name : String) (status : TaskStatus)
  | verified
deriving DecidableEq, Repr

/-- The `verifyTask` tool: look the task up; reject if missing or not
`in_progress`; when the score is at least 80, attach the summary and mark
the task completed; otherwise leave the store untouched and return the
feedback prompt. -/
def verifyTask (tasks : List Task) (taskId : String) (summary : String) (score : ℚ)
    (now : Nat) : VerifyResult × List Task :=
  match getTaskById tasks taskId with
  | none => (VerifyResult.notFound, tasks)
  | some task =>
    if task.status ≠ TaskStatus.in_progress then
      (VerifyResult.statusError task.name task.status, tasks)
    else if 80 ≤ score then
      (VerifyResult.verified,
        updateTaskStatus (updateTaskSummary tasks taskId summary now) taskId
          TaskStatus.completed now)
    else
      (VerifyResult.verified, tasks)

/-! ## executeTask (src/tools/task/executeTask.ts) -/

/-- Outcome of the `executeTask` tool, one constructor per return site
(the complexity assessment, dependency summaries and related-file loading
performed after the status update only shape the prompt text and never
touch the store). -/
inductive ExecuteResult where
  | notFound
  | notExecutable (blockedBy : List String)
  | alreadyInProgress
  | alreadyCompleted
  | started
deriving DecidableEq, Repr

/-- The `executeTask` tool: look the task up; ask the Execution Gate
(`canExecuteTask`) whether it may run; report an already `in_progress` or
already `completed` task; otherwise mark the task `in_progress`. The gate
is consulted before the status checks, exactly as in the source. -/
def executeTask (tasks : List Task) (taskId : String) (now : Nat) :
    ExecuteResult × List Task :=
  match getTaskById tasks taskId with
  | none => (ExecuteResult.notFound, tasks)
  | some task =>
    let check := canExecuteTask tasks taskId
    if !check.canExecute then
      (ExecuteResult.notExecutable check.blockedBy, tasks)
    else if task.status = TaskStatus.in_progress then
      (ExecuteResult.alreadyInProgress, tasks)
    else if task.status = TaskStatus.completed then
      (ExecuteResult.alreadyCompleted, tasks)
    else
      (ExecuteResult.started, updateTaskStatus tasks taskId TaskStatus.in_progress now)

/-! ## Batch candidates and the tasksSchema validation (src/tools/task/splitTasksRaw.ts) -/

/-- A candidate task of the incoming batch, as accepted by `tasksSchema`:
`name`, `description` and `implementationGuide` are required strings, the
rest are optional. -/
structure CandidateTask where
  name : String
  description : String
  implementationGuide : String
  dependencies : Option (List String)
  notes : Option String
  relatedFiles : Option (List RelatedFile)
  verificationCriteria : Option String
deriving DecidableEq, Repr

/-- The related-file item validation of `tasksSchema`: non-empty `path`,
required non-empty `description`, positive integral `lineStart`/`lineEnd`
when present. -/
def validSchemaRelatedFile (f : RelatedFile) : Bool :=
  decide (1 ≤ f.path.length) &&
  (match f.description with
   | some d => decide (1 ≤ d.length)
   | none => false) &&
  (match f.lineStart with
   | some n => decide (1 ≤ n)
   | none => true) &&
  (match f.lineEnd with
   | some n => decide (1 ≤ n)
   | none => true)

/-- The per-task validation of `tasksSchema`: the name is capped at 100
characters (the schema places no lower bound on it), the description must
have at least 10 characters, and every related file must satisfy
`validSchemaRelatedFile`. -/
def validCandidateTask (t : CandidateTask) : Bool :=
  decide (t.name.length ≤ 100) &&
  decide (10 ≤ t.description.length) &&
  (match t.relatedFiles with
   | some fs => fs.all validSchemaRelatedFile
   | none => true)

/-- `tasksSchema.safeParse` succeeds: at least one task and every task
valid. -/
def tasksSchemaValid (ts : List CandidateTask) : Bool :=
  decide (1 ≤ ts.length) && ts.all validCandidateTask

/-- The duplicate-name loop of `splitTasksRaw`: walk the batch keeping the
set of names already seen, reporting a duplicate as soon as a name
repeats. -/
def hasDuplicateNames : List CandidateTask → List String → Bool
  | [], _ => false
  | t :: rest, seen =>
    if t.name ∈ seen then true else hasDuplicateNames rest (t.name :: seen)

/-! ## The durable store and the batch reconciler (taskModel, modelled from the spec) -/

/-- The durable task set together with the backup snapshots written so far
(the Store Facade of the spec owns the durable set; backups record the
`clearAllTasks` backup-before-destroy step). -/
structure Store where
  tasks : List Task
  backups : List (List Task)
deriving DecidableEq, Repr

/-- The timestamped backup location reported by `clearAllTasks`. -/
def backupPath (now : Nat) : String :=
  "tasks_backup_" ++ toString now ++ ".json"

/-- Result of the clear step of `clearAllTasks`. -/
structure ClearResult where
  success : Bool
  backupFile : Option String
deriving DecidableEq, Repr

/-- Modelled from the spec: `clearAllTasks` of the taskModel module (not
among the provided sources) — section 4.6: the entire durable set is
serialized to a timestamped backup location, then the durable set is
emptied. -/
def modelClearAllTasks (s : Store) (now : Nat) : ClearResult × Store :=
  (⟨true, some (backupPath now)⟩, ⟨[], s.backups ++ [s.tasks]⟩)

/-- The three merge modes accepted by `batchCreateOrUpdateTasks`
(`clearAllTasks` is handled by the tool and delegates in `append` mode). -/
inductive BatchMode where
  | append
  | overwrite
  | selective
deriving DecidableEq, Repr

/-- A fresh, collision-resistant task id for the `i`-th incoming task
(the source draws a random UUID v4; the spec says any collision-resistant
unique id is acceptable). -/
def freshId (now i : Nat) : String :=
  "task-" ++ toString now ++ "-" ++ toString i

/-- A newly created task from a batch candidate: status `pending`,
`createdAt = updatedAt`, dependencies resolved afterwards, the global
analysis result attached when the task carries none. -/
def mkNewTask (c : CandidateTask) (id : String) (now : Nat) (gar : Option String) : Task :=
  { id := id
    name := c.name
    description := c.description
    notes := c.notes
    status := TaskStatus.pending
    dependencies := []
    createdAt := now
    updatedAt := now
    completedAt := none
    summary := none
    relatedFiles := c.relatedFiles
    analysisResult := gar
    implementationGuide := some c.implementationGuide
    verificationCriteria := c.verificationCriteria }

/-- Modelled from the spec: the Dependency Resolver of section 4.3 —
exact id match first, then exact name match, preferring a match within
the incoming batch over the durable set. Returns the resolved id. -/
def resolveToken (durable batch : List Task) (token : String) : Option String :=
  match batch.find? (fun t => t.id == token) with
  | some t => some t.id
  | none =>
  match durable.find? (fun t => t.id == token) with
  | some t => some t.id
  | none =>
  match batch.find? (fun t => t.name == token) with
  | some t => some t.id
  | none =>
  match durable.find? (fun t => t.name == token) with
  | some t => some t.id
  | none => none

/-- Resolve a list of dependency tokens; the first unresolved token fails
the whole list (`DependencyNotFound` carrying the offending token). -/
def resolveAll (durable batch : List Task) : List String → Except String (List TaskDependency)
  | [] => Except.ok []
  | tok :: rest =>
    match resolveToken durable batch tok with
    | none => Except.error tok
    | some id =>
      match resolveAll durable batch rest with
      | Except.error e => Except.error e
      | Except.ok deps => Except.ok (⟨id⟩ :: deps)

/-- Attach resolved dependencies to each task paired with its raw tokens;
any unresolved token fails the whole batch. -/
def attachDeps (durable batch : List Task) :
    List (Task × List String) → Except String (List Task)
  | [] => Except.ok []
  | (t, toks) :: rest =>
    match resolveAll durable batch toks with
    | Except.error e => Except.error e
    | Except.ok deps =>
      match attachDeps durable batch rest with
      | Except.error e => Except.error e
      | Except.ok ts => Except.ok ({ t with dependencies := deps } :: ts)

/-- As `attachDeps`, over tasks that may instead be retained unchanged
(`none` marks an existing task not matched by the batch). -/
def attachDepsOpt (durable batch : List Task) :
    List (Task × Option (List String)) → Except String (List Task)
  | [] => Except.ok []
  | (t, none) :: rest =>
    match attachDepsOpt durable batch rest with
    | Except.error e => Except.error e
    | Except.ok ts => Except.ok (t :: ts)
  | (t, some toks) :: rest =>
    match resolveAll durable batch toks with
    | Except.error e => Except.error e
    | Except.ok deps =>
      match attachDepsOpt durable batch rest with
      | Except.error e => Except.error e
      | Except.ok ts => Except.ok ({ t with dependencies := deps } :: ts)

/-- Selective-mode in-place update: content fields replaced, id, status
and timestamps preserved; the analysis result keeps its first writer. -/
def applyContent (t : Task) (c : CandidateTask) (gar : Option String) : Task :=
  { t with
    name := c.name
    description := c.description
    notes := c.notes
    implementationGuide := some c.implementationGuide
    verificationCriteria := c.verificationCriteria
    relatedFiles := c.relatedFiles
    analysisResult := if t.analysisResult.isSome then t.analysisResult else gar }

/-- Shell tasks (fresh ids, unresolved dependencies) for a batch of
candidates, paired with their raw dependency tokens. -/
def mkShells (cs : List CandidateTask) (now : Nat) (gar : Option String) :
    List (Task × List String) :=
  cs.enum.map (fun p => (mkNewTask p.2 (freshId now p.1) now gar, p.2.dependencies.getD []))

/-- Modelled from the spec: `batchCreateOrUpdateTasks` of the taskModel
module (not among the provided sources) — the Batch Reconciler of
section 4.6. `append` keeps existing tasks and creates every candidate
anew; `overwrite` retains only completed tasks and creates every
candidate anew; `selective` updates name-matched tasks in place, retains
the rest, and creates the unmatched candidates. Dependency tokens are
resolved against the union of the surviving tasks and the incoming
batch; an unresolved token fails the whole batch atomically. Returns the
new durable task list (prompt and message rendering are out of scope). -/
def batchCreateOrUpdateTasks (tasks : List Task) (candidates : List CandidateTask)
    (mode : BatchMode) (gar : Option String) (now : Nat) :
    Except String (List Task) :=
  match mode with
  | BatchMode.append =>
    let shells := mkShells candidates now gar
    let batchPool := shells.map (fun p => p.1)
    match attachDeps tasks batchPool shells with
    | Except.error e => Except.error e
    | Except.ok created => Except.ok (tasks ++ created)
  | BatchMode.overwrite =>
    let base := tasks.filter (fun t => t.status == TaskStatus.completed)
    let shells := mkShells candidates now gar
    let batchPool := shells.map (fun p => p.1)
    match attachDeps base batchPool shells with
    | Except.error e => Except.error e
    | Except.ok created => Except.ok (base ++ created)
  | BatchMode.selective =>
    let updatedPairs : List (Task × Option (List String)) :=
      tasks.map (fun t =>
        match candidates.find? (fun c => c.name == t.name) with
        | some c => (applyContent t c gar, some (c.dependencies.getD []))
        | none => (t, none))
    let newcomers := candidates.filter (fun c => tasks.all (fun t => !(t.name == c.name)))
    let shells := mkShells newcomers now gar
    let durable := updatedPairs.map (fun p => p.1)
    let batchPool :=
      (updatedPairs.filterMap (fun p => if p.2.isSome then some p.1 else none))
        ++ shells.map (fun p => p.1)
    match attachDepsOpt durable batchPool updatedPairs with
    | Except.error e => Except.error e
    | Except.ok base =>
      match attachDeps durable batchPool shells with
      | Except.error e => Except.error e
      | Except.ok created => Except.ok (base ++ created)

/-! ## splitTasksRaw (src/tools/task/splitTasksRaw.ts) -/

/-- The four update modes of `splitTasksRawSchema`. -/
inductive UpdateMode where
  | append
  | overwrite
  | selective
  | clearAllTasks
deriving DecidableEq, Repr

/-- The merge mode `splitTasksRaw` hands to `batchCreateOrUpdateTasks`
(the `clearAllTasks` branch delegates in `append` mode). -/
def UpdateMode.batchMode : UpdateMode → BatchMode
  | UpdateMode.append => BatchMode.append
  | UpdateMode.overwrite => BatchMode.overwrite
  | UpdateMode.selective => BatchMode.selective
  | UpdateMode.clearAllTasks => BatchMode.append

/-- The `ephemeral.taskCreationResult` payload of `splitTasksRaw`:
`success` is the overall action success, `backupFilePath` is set exactly
when the clear step of `clearAllTasks` wrote a backup. -/
structure TaskCreationResult where
  success : Bool
  backupFilePath : Option String
deriving DecidableEq, Repr

/-- Outcome of the `splitTasksRaw` tool: schema rejection, duplicate-name
rejection, or a finished run with its task-creation result. -/
inductive SplitOutcome where
  | schemaError
  | duplicateNameError
  | finished (r : TaskCreationResult)
deriving DecidableEq, Repr

/-- The `splitTasksRaw` tool on an already-parsed batch: validate the
batch against `tasksSchema`, reject duplicate names, then apply the
requested update mode. In `clearAllTasks` mode the clear (with its
backup) commits before the creation step; a creation failure afterwards
is reported with `success := false` while the backup path remains
surfaced and the cleared store is not rolled back. -/
def splitTasksRaw (store : Store) (updateMode : UpdateMode) (batch : List CandidateTask)
    (gar : Option String) (now : Nat) : SplitOutcome × Store :=
  if !(tasksSchemaValid batch) then
    (SplitOutcome.schemaError, store)
  else if hasDuplicateNames batch [] then
    (SplitOutcome.duplicateNameError, store)
  else
    match updateMode with
    | UpdateMode.clearAllTasks =>
      let cleared := modelClearAllTasks store now
      if cleared.1.success then
        match batchCreateOrUpdateTasks cleared.2.tasks batch BatchMode.append gar now with
        | Except.ok newTasks =>
          (SplitOutcome.finished ⟨true, cleared.1.backupFile⟩,
            { cleared.2 with tasks := newTasks })
        | Except.error _ =>
          (SplitOutcome.finished ⟨false, cleared.1.backupFile⟩, cleared.2)
      else
        (SplitOutcome.finished ⟨false, none⟩, store)
    | mode =>
      match batchCreateOrUpdateTasks store.tasks batch mode.batchMode gar now with
      | Except.ok newTasks =>
        (SplitOutcome.finished ⟨true, none⟩, { store with tasks := newTasks })
      | Except.error _ =>
        (SplitOutcome.finished ⟨false, none⟩, store)

/-! ## updateTaskContent (src/tools/task/updateTaskContent.ts) -/

/-- JavaScript truthiness of an optional string: present and non-empty. -/
def strTruthy : Option String → Bool
  | some s => s != ""
  | none => false

/-- JavaScript truthiness of an optional array: present (even empty). -/
def listTruthy {α : Type} : Option (List α) → Bool
  | some _ => true
  | none => false

/-- JavaScript truthiness of an optional number: present and non-zero. -/
def natTruthy : Option Nat → Bool
  | some n => n != 0
  | none => false

/-- The line-range rejection test of `updateTaskContent`, field by field
as in the source: exactly one of `lineStart`/`lineEnd` truthy, or both
truthy with `lineStart > lineEnd`. -/
def badLineRange (f : RelatedFile) : Bool :=
  (natTruthy f.lineStart && !natTruthy f.lineEnd) ||
  (!natTruthy f.lineStart && natTruthy f.lineEnd) ||
  (natTruthy f.lineStart && natTruthy f.lineEnd &&
    decide (f.lineEnd.getD 0 < f.lineStart.getD 0))

/-- The arguments of the `updateTaskContent` tool; an absent optional
field is `none`. -/
structure UpdateRequest where
  taskId : String
  name : Option String
  description : Option String
  notes : Option String
  dependencies : Option (List String)
  relatedFiles : Option (List RelatedFile)
  implementationGuide : Option String
  verificationCriteria : Option String
deriving DecidableEq, Repr

/-- The emptiness test of `updateTaskContent`: the disjunction
`name || description || notes || dependencies || implementationGuide ||
verificationCriteria || relatedFiles` under JavaScript truthiness. -/
def hasAnyField (r : UpdateRequest) : Bool :=
  strTruthy r.name || strTruthy r.description || strTruthy r.notes ||
  listTruthy r.dependencies || strTruthy r.implementationGuide ||
  strTruthy r.verificationCriteria || listTruthy r.relatedFiles

/-- Whether some supplied related file trips the line-range rejection. -/
def requestedLineRangeInvalid (r : UpdateRequest) : Bool :=
  match r.relatedFiles with
  | some files => files.any badLineRange
  | none => false

/-- Outcome of the `updateTaskContent` tool, one constructor per return
site. -/
inductive UpdateResult where
  | lineRangeError
  | emptyUpdate
  | notFound
  | updated (success : Bool)
deriving DecidableEq, Repr

/-- Modelled from the spec: the taskModel `updateTaskContent` operation
(not among the provided sources) — whole-field replace semantics, a
field is changed only if explicitly supplied; `updatedAt` advances
(section 3). -/
def modelUpdateTaskContent (tasks : List Task) (r : UpdateRequest) (now : Nat) :
    Bool × List Task :=
  match getTaskById tasks r.taskId with
  | none => (false, tasks)
  | some _ =>
    (true, updateById tasks r.taskId (fun t =>
      { t with
        name := r.name.getD t.name
        description := r.description.getD t.description
        notes :=
          match r.notes with
          | some v => some v
          | none => t.notes
        dependencies :=
          match r.dependencies with
          | some ds => ds.map (fun d => ⟨d⟩)
          | none => t.dependencies
        relatedFiles :=
          match r.relatedFiles with
          | some fs => some fs
          | none => t.relatedFiles
        implementationGuide :=
          match r.implementationGuide with
          | some v => some v
          | none => t.implementationGuide
        verificationCriteria :=
          match r.verificationCriteria with
          | some v => some v
          | none => t.verificationCriteria
        updatedAt := now }))

/-- The `updateTaskContent` tool after its line-range validation: the
empty-update early return, the existence check, then the delegated
store-level update. -/
def updateTaskContentChecked (tasks : List Task) (r : UpdateRequest) (now : Nat) :
    UpdateResult × List Task :=
  if !(hasAnyField r) then (UpdateResult.emptyUpdate, tasks)
  else
    match getTaskById tasks r.taskId with
    | none => (UpdateResult.notFound, tasks)
    | some _ =>
      (UpdateResult.updated (modelUpdateTaskContent tasks r now).1,
        (modelUpdateTaskContent tasks r now).2)

/-- The `updateTaskContent` tool: the related-file line-range validation
runs first and rejects before anything else happens. -/
def updateTaskContent (tasks : List Task) (r : UpdateRequest) (now : Nat) :
    UpdateResult × List Task :=
  if requestedLineRangeInvalid r then (UpdateResult.lineRangeError, tasks)
  else updateTaskContentChecked tasks r now

/-- Schema-side guarantee of `updateTaskContentSchema`: supplied
`lineStart`/`lineEnd` values are positive integers. -/
def positiveLines (f : RelatedFile) : Bool :=
  (match f.lineStart with
   | some n => decide (0 < n)
   | none => true) &&
  (match f.lineEnd with
   | some n => decide (0 < n)
   | none => true)

/-- The rejection condition of the claim stated in the words of the specification
(for comparison with the source-level `badLineRange`): exactly one of
`lineStart`/`lineEnd` present, or both present with
`lineStart > lineEnd`. -/
def badRangeSpec (f : RelatedFile) : Bool :=
  (f.lineStart.isSome != f.lineEnd.isSome) ||
  (match f.lineStart, f.lineEnd with
   | some a, some b => decide (b < a)
   | _, _ => false)

/-! ## Concrete example inputs used by the witnesses and counterexamples -/

/-- An `in_progress` task with no dependencies. -/
def exTask1 : Task :=
  { id := "11111111-1111-4111-8111-111111111111"
    name := "sample task"
    description := "a sample description"
    notes := none
    status := TaskStatus.in_progress
    dependencies := []
    createdAt := 0
    updatedAt := 0
    completedAt := none
    summary := none
    relatedFiles := none
    analysisResult := none
    implementationGuide := none
    verificationCriteria := none }

/-- A completion summary of more than 30 characters. -/
def exSummary1 : String := "implemented the feature and verified it"

/-- A `pending` task sitting in the durable store. -/
def exStoreTask : Task :=
  { id := "s1"
    name := "existing"
    description := "already durable"
    notes := none
    status := TaskStatus.pending
    dependencies := []
    createdAt := 0
    updatedAt := 0
    completedAt := none
    summary := none
    relatedFiles := none
    analysisResult := none
    implementationGuide := none
    verificationCriteria := none }

/-- A store holding `exStoreTask` and no backups yet. -/
def exStore : Store := ⟨[exStoreTask], []⟩

/-- A batch candidate; listed twice it makes a duplicate-name batch. -/
def exDupCandidate : CandidateTask :=
  { name := "twin"
    description := "a duplicated candidate"
    implementationGuide := "guide"
    dependencies := none
    notes := none
    relatedFiles := none
    verificationCriteria := none }

/-- A `pending` task depending on the completed `exDep3`. -/
def exTask3 : Task :=
  { id := "t3"
    name := "runnable"
    description := "a runnable task"
    notes := none
    status := TaskStatus.pending
    dependencies := [⟨"d3"⟩]
    createdAt := 0
    updatedAt := 0
    completedAt := none
    summary := none
    relatedFiles := none
    analysisResult := none
    implementationGuide := none
    verificationCriteria := none }

/-- The completed prerequisite of `exTask3`. -/
def exDep3 : Task :=
  { exTask3 with
    id := "d3"
    name := "prerequisite"
    status := TaskStatus.completed
    dependencies := [] }

/-- A `completed` task whose recorded dependency is still `pending`. -/
def exTask4 : Task :=
  { exTask3 with
    id := "c4"
    name := "done already"
    status := TaskStatus.completed
    dependencies := [⟨"p4"⟩] }

/-- The pending dependency of `exTask4`. -/
def exDep4 : Task :=
  { exTask3 with
    id := "p4"
    name := "still pending"
    status := TaskStatus.pending
    dependencies := [] }

/-- A `completed` task with no dependencies. -/
def exTask4b : Task :=
  { exTask3 with
    id := "c4b"
    name := "done no deps"
    status := TaskStatus.completed
    dependencies := [] }

/-- An `in_progress` task whose recorded dependency is still `pending`. -/
def exTask5 : Task :=
  { exTask3 with
    id := "c5"
    name := "running"
    status := TaskStatus.in_progress
    dependencies := [⟨"p5"⟩] }

/-- The pending dependency of `exTask5`. -/
def exDep5 : Task :=
  { exTask3 with
    id := "p5"
    name := "recreated pending"
    status := TaskStatus.pending
    dependencies := [] }

/-- An `in_progress` task with no dependencies. -/
def exTask5b : Task :=
  { exTask3 with
    id := "c5b"
    name := "running no deps"
    status := TaskStatus.in_progress
    dependencies := [] }

/-- A schema-shaped candidate whose name is empty. -/
def exEmptyNameCandidate : CandidateTask :=
  { name := ""
    description := "0123456789"
    implementationGuide := "guide"
    dependencies := none
    notes := none
    relatedFiles := none
    verificationCriteria := none }

/-- A 101-character name, above the schema cap. -/
def exLongName : String := String.mk (List.replicate 101 'a')

/-- A candidate whose dependency token resolves to nothing. -/
def exUnresolvableCandidate : CandidateTask :=
  { name := "orphan"
    description := "depends on a missing task"
    implementationGuide := "guide"
    dependencies := some ["missing-prerequisite"]
    notes := none
    relatedFiles := none
    verificationCriteria := none }

/-- A related file with `lineStart` supplied and `lineEnd` absent. -/
def exBadFile : RelatedFile :=
  { path := "src/app.ts"
    type := RelatedFileType.TO_MODIFY
    description := none
    lineStart := some 5
    lineEnd := none }

/-- An update request carrying `exBadFile`. -/
def exBadRequest : UpdateRequest :=
  { taskId := "u8"
    name := none
    description := none
    notes := none
    dependencies := none
    relatedFiles := some [exBadFile]
    implementationGuide := none
    verificationCriteria := none }

/-- A related file with `lineStart = lineEnd`. -/
def exEqFile : RelatedFile :=
  { exBadFile with lineStart := some 3, lineEnd := some 3 }

/-- An update request carrying `exEqFile`. -/
def exEqRequest : UpdateRequest :=
  { exBadRequest with relatedFiles := some [exEqFile] }

/-! ## Helper lemmas -/

theorem getTaskById_updateById (tasks : List Task) (taskId : String) (g : Task → Task)
    (hid : ∀ t, (g t).id = t.id) :
    getTaskById (updateById tasks taskId g) taskId = (getTaskById tasks taskId).map g := by
  induction tasks with
  | nil => rfl
  | cons t rest ih =>
    by_cases h : t.id = taskId
    · simp [getTaskById, updateById, List.find?, h, hid]
    · have hb : (t.id == taskId) = false := by simp [h]
      simpa [getTaskById, updateById, List.find?, hb, hid] using ih

theorem getTaskById_updateTaskStatus (tasks : List Task) (taskId : String)
    (status : TaskStatus) (now : Nat) :
    getTaskById (updateTaskStatus tasks taskId status now) taskId
      = (getTaskById tasks taskId).map (fun t =>
          { t with
            status := status
            updatedAt := now
            completedAt := if status = TaskStatus.completed then some now else t.completedAt }) :=
  getTaskById_updateById tasks taskId _ (fun _ => rfl)

theorem getTaskById_updateTaskSummary (tasks : List Task) (taskId : String)
    (summary : String) (now : Nat) :
    getTaskById (updateTaskSummary tasks taskId summary now) taskId
      = (getTaskById tasks taskId).map (fun t =>
          { t with summary := some summary, updatedAt := now }) :=
  getTaskById_updateById tasks taskId _ (fun _ => rfl)

theorem isEmpty_filter_map_all {α β : Type} (l : List α) (p : α → Bool) (f : α → β) :
    ((l.filter (fun a => !p a)).map f).isEmpty = l.all p := by
  induction l with
  | nil => rfl
  | cons a rest ih =>
    cases h : p a <;> simp [List.filter_cons, h, List.all_cons, ih]

theorem canExecuteTask_canExecute (tasks : List Task) (task : Task) (taskId : String)
    (hfind : getTaskById tasks taskId = some task) :
    (canExecuteTask tasks taskId).canExecute
      = task.dependencies.all (fun d => depCompleted tasks d.taskId) := by
  simp only [canExecuteTask, hfind]
  exact isEmpty_filter_map_all _ _ _

theorem hasDuplicateNames_of_seen (l : List CandidateTask) (seen : List String)
    (h : ∃ c ∈ l, c.name ∈ seen) : hasDuplicateNames l seen = true := by
  induction l generalizing seen with
  | nil => simp at h
  | cons t rest ih =>
    obtain ⟨c, hc, hcs⟩ := h
    by_cases ht : t.name ∈ seen
    · simp [hasDuplicateNames, ht]
    · rcases List.mem_cons.mp hc with rfl | hcr
      · exact absurd hcs ht
      · simp only [hasDuplicateNames, if_neg ht]
        exact ih (t.name :: seen) ⟨c, hcr, List.mem_cons_of_mem _ hcs⟩

theorem hasDuplicateNames_of_not_nodup (l : List CandidateTask) (seen : List String)
    (h : ¬ (l.map CandidateTask.name).Nodup) : hasDuplicateNames l seen = true := by
  induction l generalizing seen with
  | nil => simp at h
  | cons t rest ih =>
    by_cases ht : t.name ∈ seen
    · simp [hasDuplicateNames, ht]
    · simp only [hasDuplicateNames, if_neg ht]
      rw [List.map_cons, List.nodup_cons] at h
      push_neg at h
      by_cases hmem : t.name ∈ rest.map CandidateTask.name
      · obtain ⟨c, hc, hcn⟩ := List.mem_map.mp hmem
        exact hasDuplicateNames_of_seen rest (t.name :: seen)
          ⟨c, hc, by simp [hcn]⟩
      · exact ih _ (h hmem)

theorem badLineRange_eq_badRangeSpec (f : RelatedFile)
    (hpos : positiveLines f = true) : badLineRange f = badRangeSpec f := by
  rcases f with ⟨path, type, description, ls, le⟩
  rcases ls with _ | a <;> rcases le with _ | b
  · rfl
  · have hb : b ≠ 0 := by
      simp only [positiveLines, Bool.and_eq_true, decide_eq_true_eq] at hpos
      omega
    simp [badLineRange, badRangeSpec, natTruthy, bne_iff_ne, hb]
  · have ha : a ≠ 0 := by
      simp only [positiveLines, Bool.and_eq_true, decide_eq_true_eq] at hpos
      omega
    simp [badLineRange, badRangeSpec, natTruthy, bne_iff_ne, ha]
  · have hab : a ≠ 0 ∧ b ≠ 0 := by
      simp only [positiveLines, Bool.and_eq_true, decide_eq_true_eq] at hpos
      omega
    have ha : (a != 0) = true := by simp [bne_iff_ne, hab.1]
    have hb : (b != 0) = true := by simp [bne_iff_ne, hab.2]
    simp [badLineRange, badRangeSpec, natTruthy, ha, hb]

theorem updateTaskContentChecked_ne_lineRangeError (tasks : List Task)
    (r : UpdateRequest) (now : Nat) :
    (updateTaskContentChecked tasks r now).1 ≠ UpdateResult.lineRangeError := by
  unfold updateTaskContentChecked
  by_cases h : hasAnyField r
  · simp only [h, Bool.not_true, Bool.false_eq_true, if_false]
    cases hf : getTaskById tasks r.taskId <;> simp
  · simp [h]

/-! ## The claims -/

/-- Claim C1: for every task whose status is `in_progress`, calling verify
with a score of at least 80 and a summary of at least 30 characters sets
the status of the task to `completed` and attaches the summary, while a
score below 80 (with corrective feedback of at least 30 characters)
leaves the store, and in particular the status, unchanged. -/
theorem verifyTask_in_progress (tasks : List Task) (task : Task) (taskId : String)
    (summary : String) (score : ℚ) (now : Nat)
    (hfind : getTaskById tasks taskId = some task)
    (hstatus : task.status = TaskStatus.in_progress)
    (hlen : 30 ≤ summary.length) :
    (80 ≤ score →
      getTaskById (verifyTask tasks taskId summary score now).2 taskId
        = some { task with
                 summary := some summary
                 status := TaskStatus.completed
                 updatedAt := now
                 completedAt := some now }) ∧
    (score < 80 → (verifyTask tasks taskId summary score now).2 = tasks) := by
  constructor
  · intro h80
    have hne : ¬ task.status ≠ TaskStatus.in_progress := by simp [hstatus]
    simp only [verifyTask, hfind, if_neg hne, if_pos h80]
    rw [getTaskById_updateTaskStatus, getTaskById_updateTaskSummary, hfind]
    simp
  · intro hlt
    have hne : ¬ task.status ≠ TaskStatus.in_progress := by simp [hstatus]
    have h80 : ¬ (80 : ℚ) ≤ score := not_le.mpr hlt
    simp [verifyTask, hfind, hne, h80]

/-- Witness for claim C1 at a concrete store, score 90 and a 39-character
summary. -/
theorem verifyTask_in_progress_witness :
    getTaskById (verifyTask [exTask1] "11111111-1111-4111-8111-111111111111" exSummary1 90 7).2
        "11111111-1111-4111-8111-111111111111"
      = some { exTask1 with
               summary := some exSummary1
               status := TaskStatus.completed
               updatedAt := 7
               completedAt := some 7 } :=
  (verifyTask_in_progress [exTask1] exTask1 "11111111-1111-4111-8111-111111111111"
    exSummary1 90 7 (by decide) (by decide) (by decide)).1 (by decide)

/-- Claim C2: an incoming batch containing two tasks with the same name
makes `splitTasksRaw` fail with a validation error in every update mode,
and the durable store — tasks and backups alike — is left exactly as it
was: nothing is created, updated, deleted, cleared or backed up. -/
theorem splitTasksRaw_duplicate_names (store : Store) (mode : UpdateMode)
    (batch : List CandidateTask) (gar : Option String) (now : Nat)
    (hdup : ¬ (batch.map CandidateTask.name).Nodup) :
    ((splitTasksRaw store mode batch gar now).1 = SplitOutcome.schemaError ∨
     (splitTasksRaw store mode batch gar now).1 = SplitOutcome.duplicateNameError) ∧
    (splitTasksRaw store mode batch gar now).2 = store := by
  have hd := hasDuplicateNames_of_not_nodup batch [] hdup
  by_cases hs : tasksSchemaValid batch
  · simp [splitTasksRaw, hs, hd]
  · simp [splitTasksRaw, hs]

/-- Witness for claim C2: a two-element batch repeating one name, in
`clearAllTasks` mode, against a non-empty store. -/
theorem splitTasksRaw_duplicate_names_witness :
    ((splitTasksRaw exStore UpdateMode.clearAllTasks [exDupCandidate, exDupCandidate] none 3).1
        = SplitOutcome.schemaError ∨
     (splitTasksRaw exStore UpdateMode.clearAllTasks [exDupCandidate, exDupCandidate] none 3).1
        = SplitOutcome.duplicateNameError) ∧
    (splitTasksRaw exStore UpdateMode.clearAllTasks [exDupCandidate, exDupCandidate] none 3).2
      = exStore :=
  splitTasksRaw_duplicate_names exStore UpdateMode.clearAllTasks
    [exDupCandidate, exDupCandidate] none 3 (by decide)

/-- Claim C3: a `pending` task is moved to `in_progress` by `executeTask`
exactly when the Execution Gate reports it executable, which is when all
its dependencies are completed; when the gate reports it not executable
the tool fails, reports the blocking dependency ids, and leaves the
stored task set, in particular the status, unchanged. -/
theorem executeTask_pending (tasks : List Task) (task : Task) (taskId : String) (now : Nat)
    (hfind : getTaskById tasks taskId = some task)
    (hstatus : task.status = TaskStatus.pending) :
    (canExecuteTask tasks taskId).canExecute
        = task.dependencies.all (fun d => depCompleted tasks d.taskId) ∧
    ((canExecuteTask tasks taskId).canExecute = true →
        (executeTask tasks taskId now).1 = ExecuteResult.started ∧
        getTaskById (executeTask tasks taskId now).2 taskId
          = some { task with status := TaskStatus.in_progress, updatedAt := now }) ∧
    ((canExecuteTask tasks taskId).canExecute = false →
        (executeTask tasks taskId now).1
            = ExecuteResult.notExecutable (canExecuteTask tasks taskId).blockedBy ∧
        (executeTask tasks taskId now).2 = tasks) := by
  refine ⟨canExecuteTask_canExecute tasks task taskId hfind, ?_, ?_⟩
  · intro hgate
    have h1 : executeTask tasks taskId now
        = (ExecuteResult.started, updateTaskStatus tasks taskId TaskStatus.in_progress now) := by
      simp [executeTask, hfind, hgate, hstatus]
    rw [h1]
    refine ⟨rfl, ?_⟩
    rw [getTaskById_updateTaskStatus, hfind]
    simp
  · intro hgate
    simp [executeTask, hfind, hgate]

/-- Witness for claim C3: a pending task whose single dependency is
completed starts successfully. -/
theorem executeTask_pending_witness :
    (executeTask [exTask3, exDep3] "t3" 9).1 = ExecuteResult.started ∧
    getTaskById (executeTask [exTask3, exDep3] "t3" 9).2 "t3"
      = some { exTask3 with status := TaskStatus.in_progress, updatedAt := 9 } :=
  (executeTask_pending [exTask3, exDep3] exTask3 "t3" 9 (by decide) (by decide)).2.1 (by decide)

/-- Counterexample to claim C4 as stated: a `completed` task with a still
`pending` dependency is rejected by `executeTask` with the not-executable
report naming the blocking dependency, not with the already-completed
report — the gate check precedes the status check in the source. -/
theorem executeTask_completed_counterexample :
    (getTaskById [exTask4, exDep4] "c4").map Task.status = some TaskStatus.completed ∧
    (executeTask [exTask4, exDep4] "c4" 5).1 = ExecuteResult.notExecutable ["p4"] ∧
    (executeTask [exTask4, exDep4] "c4" 5).1 ≠ ExecuteResult.alreadyCompleted := by
  decide

/-- Claim C4 (amended): a `completed` task is never changed by
`executeTask` — there is no completed-to-pending edge — and whenever the
Execution Gate reports it executable the rejection is the
already-completed report that directs the caller to delete and recreate
the task; when the gate reports it not executable the rejection is the
not-executable report instead. -/
theorem executeTask_completed (tasks : List Task) (task : Task) (taskId : String) (now : Nat)
    (hfind : getTaskById tasks taskId = some task)
    (hstatus : task.status = TaskStatus.completed) :
    (executeTask tasks taskId now).2 = tasks ∧
    ((canExecuteTask tasks taskId).canExecute = true →
        (executeTask tasks taskId now).1 = ExecuteResult.alreadyCompleted) ∧
    ((canExecuteTask tasks taskId).canExecute = false →
        (executeTask tasks taskId now).1
          = ExecuteResult.notExecutable (canExecuteTask tasks taskId).blockedBy) := by
  have hni : task.status ≠ TaskStatus.in_progress := by simp [hstatus]
  refine ⟨?_, ?_, ?_⟩
  · cases hgate : (canExecuteTask tasks taskId).canExecute <;>
      simp [executeTask, hfind, hgate, hni, hstatus]
  · intro hgate
    simp [executeTask, hfind, hgate, hni, hstatus]
  · intro hgate
    simp [executeTask, hfind, hgate]

/-- Witness for the amended claim C4: a completed task with no
dependencies is rejected as already completed and the store is
unchanged. -/
theorem executeTask_completed_witness :
    (executeTask [exTask4b] "c4b" 6).2 = [exTask4b] ∧
    (executeTask [exTask4b] "c4b" 6).1 = ExecuteResult.alreadyCompleted :=
  ⟨(executeTask_completed [exTask4b] exTask4b "c4b" 6 (by decide) (by decide)).1,
   (executeTask_completed [exTask4b] exTask4b "c4b" 6 (by decide) (by decide)).2.1 (by decide)⟩

/-- Counterexample to claim C5 as stated: an `in_progress` task with a
still `pending` dependency is rejected by `executeTask` with the
not-executable report, not with the already-in-progress report — the
gate check precedes the status check in the source. -/
theorem executeTask_in_progress_counterexample :
    (getTaskById [exTask5, exDep5] "c5").map Task.status = some TaskStatus.in_progress ∧
    (executeTask [exTask5, exDep5] "c5" 5).1 = ExecuteResult.notExecutable ["p5"] ∧
    (executeTask [exTask5, exDep5] "c5" 5).1 ≠ ExecuteResult.alreadyInProgress := by
  decide

/-- Claim C5 (amended): calling `executeTask` on a task already
`in_progress` never mutates the store — status, timestamps and all other
fields are unchanged — and whenever the Execution Gate reports the task
executable the call reports the already-in-progress condition as an
idempotent no-op; when the gate reports it not executable the
not-executable report is returned instead. -/
theorem executeTask_in_progress (tasks : List Task) (task : Task) (taskId : String) (now : Nat)
    (hfind : getTaskById tasks taskId = some task)
    (hstatus : task.status = TaskStatus.in_progress) :
    (executeTask tasks taskId now).2 = tasks ∧
    ((canExecuteTask tasks taskId).canExecute = true →
        (executeTask tasks taskId now).1 = ExecuteResult.alreadyInProgress) ∧
    ((canExecuteTask tasks taskId).canExecute = false →
        (executeTask tasks taskId now).1
          = ExecuteResult.notExecutable (canExecuteTask tasks taskId).blockedBy) := by
  refine ⟨?_, ?_, ?_⟩
  · cases hgate : (canExecuteTask tasks taskId).canExecute <;>
      simp [executeTask, hfind, hgate, hstatus]
  · intro hgate
    simp [executeTask, hfind, hgate, hstatus]
  · intro hgate
    simp [executeTask, hfind, hgate]

/-- Witness for the amended claim C5: an in-progress task with no
dependencies is reported as already in progress and the store is
unchanged. -/
theorem executeTask_in_progress_witness :
    (executeTask [exTask5b] "c5b" 6).2 = [exTask5b] ∧
    (executeTask [exTask5b] "c5b" 6).1 = ExecuteResult.alreadyInProgress :=
  ⟨(executeTask_in_progress [exTask5b] exTask5b "c5b" 6 (by decide) (by decide)).1,
   (executeTask_in_progress [exTask5b] exTask5b "c5b" 6 (by decide) (by decide)).2.1 (by decide)⟩

/-- Claim C6: for every task whose status is not `in_progress`, `verifyTask`
returns the status error (the NotInProgress condition, flagged as an
error) and performs no state change at all — status, summary and
timestamps included. -/
theorem verifyTask_not_in_progress (tasks : List Task) (task : Task) (taskId : String)
    (summary : String) (score : ℚ) (now : Nat)
    (hfind : getTaskById tasks taskId = some task)
    (hstatus : task.status ≠ TaskStatus.in_progress) :
    (verifyTask tasks taskId summary score now).1
        = VerifyResult.statusError task.name task.status ∧
    (verifyTask tasks taskId summary score now).2 = tasks := by
  simp [verifyTask, hfind, hstatus]

/-- Witness for claim C6: verifying a pending task is rejected without
any change. -/
theorem verifyTask_not_in_progress_witness :
    (verifyTask [exStoreTask] "s1" "thirty characters of feedback..." 95 2).1
        = VerifyResult.statusError "existing" TaskStatus.pending ∧
    (verifyTask [exStoreTask] "s1" "thirty characters of feedback..." 95 2).2
      = [exStoreTask] :=
  verifyTask_not_in_progress [exStoreTask] exStoreTask "s1"
    "thirty characters of feedback..." 95 2 (by decide) (by decide)

/-- Claim C7 (code bug): `tasksSchema` does reject a name above 100
characters and a description below 10 characters, but it places no lower
bound on the name, so a candidate with an empty name passes validation
and `splitTasksRaw` proceeds to mutate the durable set, creating the
task. -/
theorem tasksSchema_name_validation :
    validCandidateTask exEmptyNameCandidate = true ∧
    (splitTasksRaw ⟨[], []⟩ UpdateMode.append [exEmptyNameCandidate] none 3).1
      = SplitOutcome.finished ⟨true, none⟩ ∧
    (splitTasksRaw ⟨[], []⟩ UpdateMode.append [exEmptyNameCandidate] none 3).2.tasks ≠ [] ∧
    validCandidateTask { exEmptyNameCandidate with name := exLongName } = false ∧
    validCandidateTask { exEmptyNameCandidate with description := "short" } = false := by
  decide

/-- Claim C8: `updateTaskContent` rejects a request with the line-range
validation error, before mutating any task, exactly when some supplied
related file has exactly one of `lineStart`/`lineEnd` present or has both
present with `lineStart` greater than `lineEnd`; equality is accepted.
The hypothesis records the schema guarantee that supplied line numbers
are positive integers. -/
theorem updateTaskContent_line_range (tasks : List Task) (r : UpdateRequest) (now : Nat)
    (hpos : ∀ f ∈ r.relatedFiles.getD [], positiveLines f = true) :
    ((updateTaskContent tasks r now).1 = UpdateResult.lineRangeError ↔
      ∃ files, r.relatedFiles = some files ∧ files.any badRangeSpec = true) ∧
    ((updateTaskContent tasks r now).1 = UpdateResult.lineRangeError →
      (updateTaskContent tasks r now).2 = tasks) := by
  have hconv : requestedLineRangeInvalid r = true ↔
      ∃ files, r.relatedFiles = some files ∧ files.any badRangeSpec = true := by
    unfold requestedLineRangeInvalid
    cases hrf : r.relatedFiles with
    | none => simp
    | some files =>
      have hfs : ∀ f ∈ files, badLineRange f = badRangeSpec f := by
        intro f hf
        exact badLineRange_eq_badRangeSpec f (hpos f (by simp [hrf, hf]))
      constructor
      · intro h
        refine ⟨files, rfl, ?_⟩
        obtain ⟨f, hf, hb⟩ := List.any_eq_true.mp h
        exact List.any_eq_true.mpr ⟨f, hf, (hfs f hf) ▸ hb⟩
      · rintro ⟨files2, heq, h⟩
        obtain rfl : files = files2 := by injection heq
        obtain ⟨f, hf, hb⟩ := List.any_eq_true.mp h
        exact List.any_eq_true.mpr ⟨f, hf, (hfs f hf) ▸ hb⟩
  by_cases h : requestedLineRangeInvalid r
  · have h1 : updateTaskContent tasks r now = (UpdateResult.lineRangeError, tasks) := by
      simp [updateTaskContent, h]
    rw [h1]
    exact ⟨⟨fun _ => hconv.mp h, fun _ => rfl⟩, fun _ => rfl⟩
  · have hne := updateTaskContentChecked_ne_lineRangeError tasks r now
    have h1 : updateTaskContent tasks r now = updateTaskContentChecked tasks r now := by
      simp [updateTaskContent, h]
    rw [h1]
    exact ⟨⟨fun hc => absurd hc hne, fun hex => absurd (hconv.mpr hex) h⟩,
      fun hc => absurd hc hne⟩

/-- Witness for claim C8: a file with only `lineStart` is rejected with
no mutation, and a file with `lineStart = lineEnd` is not rejected by the
line-range validation. -/
theorem updateTaskContent_line_range_witness :
    (updateTaskContent [] exBadRequest 0).1 = UpdateResult.lineRangeError ∧
    (updateTaskContent [] exBadRequest 0).2 = [] ∧
    (updateTaskContent [] exEqRequest 0).1 ≠ UpdateResult.lineRangeError := by
  have hbad := updateTaskContent_line_range [] exBadRequest 0 (by decide)
  have heq := updateTaskContent_line_range [] exEqRequest 0 (by decide)
  refine ⟨hbad.1.mpr ⟨[exBadFile], rfl, by decide⟩, ?_, ?_⟩
  · exact hbad.2 (hbad.1.mpr ⟨[exBadFile], rfl, by decide⟩)
  · intro hcontra
    obtain ⟨files, hf, hany⟩ := heq.1.mp hcontra
    have hrf : exEqRequest.relatedFiles = some [exEqFile] := rfl
    rw [hrf] at hf
    obtain rfl : [exEqFile] = files := by injection hf
    exact absurd hany (by decide)

/-- Claim C9: in `clearAllTasks` mode, when the clear step succeeds and
the subsequent creation step fails, the clear stays committed — the
durable set remains empty and the backup snapshot written — and the
result still surfaces the backup path while reporting `success := false`:
the backup field records the clear outcome and the success flag the
create outcome, as two separately reported fields. -/
theorem splitTasksRaw_clear_asymmetry (store : Store) (batch : List CandidateTask)
    (gar : Option String) (now : Nat)
    (hschema : tasksSchemaValid batch = true)
    (hnodup : hasDuplicateNames batch [] = false)
    (e : String)
    (hfail : batchCreateOrUpdateTasks [] batch BatchMode.append gar now = Except.error e) :
    (splitTasksRaw store UpdateMode.clearAllTasks batch gar now).2.tasks = [] ∧
    (splitTasksRaw store UpdateMode.clearAllTasks batch gar now).2.backups
      = store.backups ++ [store.tasks] ∧
    (splitTasksRaw store UpdateMode.clearAllTasks batch gar now).1
      = SplitOutcome.finished ⟨false, some (backupPath now)⟩ := by
  simp [splitTasksRaw, hschema, hnodup, modelClearAllTasks, hfail]

/-- Witness for claim C9: a batch whose only candidate names a missing
dependency fails the post-clear creation step; the store ends cleared,
its backup recorded, the backup path surfaced with a false success
flag. -/
theorem splitTasksRaw_clear_asymmetry_witness :
    (splitTasksRaw exStore UpdateMode.clearAllTasks [exUnresolvableCandidate] none 4).2.tasks
        = [] ∧
    (splitTasksRaw exStore UpdateMode.clearAllTasks [exUnresolvableCandidate] none 4).2.backups
        = [] ++ [[exStoreTask]] ∧
    (splitTasksRaw exStore UpdateMode.clearAllTasks [exUnresolvableCandidate] none 4).1
        = SplitOutcome.finished ⟨false, some (backupPath 4)⟩ :=
  splitTasksRaw_clear_asymmetry exStore [exUnresolvableCandidate] none 4
    (by decide) (by decide) "missing-prerequisite" rfl

/-- Claim C10: a call to `updateTaskContent` supplying none of the
updatable fields returns the distinct empty-update response and leaves
the durable set entirely unchanged, without looking any task up. -/
theorem updateTaskContent_empty_update (tasks : List Task) (taskId : String) (now : Nat) :
    updateTaskContent tasks
        { taskId := taskId
          name := none
          description := none
          notes := none
          dependencies := none
          relatedFiles := none
          implementationGuide := none
          verificationCriteria := none } now
      = (UpdateResult.emptyUpdate, tasks) := rfl

end Shrimp
